import Mathlib

/-
  A shallow embedding of the Cucumber step definitions in
  src/features/step_definitions/create-simple-topic.ts.

  The step bodies mix pure computation (balance arithmetic, transfer-entry
  construction, control flow around try/catch) with calls into the Hedera SDK.
  The pure parts are embedded directly; each SDK round trip is represented by
  its result, passed in as an explicit argument (an Except value for calls that
  may throw, a Bool receipt status for consensus outcomes), so every step body
  becomes a total function of the results of its external calls.  Amounts are
  JS numbers holding integers; they are modelled as Int, and the one JS number
  division (balance / 100) is modelled as exact rational division.
-/

/-- adjustForDecimals (line 177 of the source): amount * 10 ^ decimals.  Every
call site in the source uses the default decimals = 2, so the factor is 100. -/
def adjustForDecimals (amount : Int) (decimals : Nat) : Int :=
  amount * (10 : Int) ^ decimals

/-- The shapes the duck-typed balance collection can take inside
getTokenBalance (lines 193-197): either the collection itself has a get
function, or it has an inner map with a get function, or neither recognized
shape is present. -/
inductive TokenCollection
  | withGet (entries : List (String × Int))
  | withMap (entries : List (String × Int))
  | unrecognized
deriving DecidableEq

/-- Association-list lookup standing for the JS Map.get: some value when the
key is present, none when it is absent. -/
def lookupEntry : List (String × Int) → String → Option Int
  | [], _ => Option.none
  | (k, v) :: rest, key => if k = key then some v else lookupEntry rest key

/-- getTokenBalance (lines 182-207): 0 when the account has no token map, the
looked-up amount (with absent mapped to 0 by the JS fallback) when either
recognized shape is found, and 0 when neither shape is recognized.  The
toNumber / Number conversions on the stored raw amount are the identity in
this integer model. -/
def getTokenBalance (tokens : Option TokenCollection) (tokenId : String) : Int :=
  match tokens with
  | Option.none => 0
  | some (TokenCollection.withGet entries) => (lookupEntry entries tokenId).getD 0
  | some (TokenCollection.withMap entries) => (lookupEntry entries tokenId).getD 0
  | some TokenCollection.unrecognized => 0

/-- verifyTokenBalance (lines 210-213): assert.strictEqual(balance / 100,
expectedAmount), true when the assertion passes.  The divisor is the literal
100 in the source; the function takes no decimals input. -/
def verifyTokenBalance (raw expectedAmount : Int) : Bool :=
  decide ((raw : ℚ) / 100 = (expectedAmount : ℚ))

/-- The ledger-mutating actions a balance-setup step can perform. -/
inductive LedgerAction
  | mint (amount : Int)
  | associate (accountId : String)
  | transfer (source target : String) (amount : Int)
deriving DecidableEq

/-- Adjustment actions of "The first account initially holds N HTT tokens"
(lines 430-465; "The first account holds N HTT tokens", lines 505-540, has an
identical body): when the balances differ, the account is the treasury and the
balance is short, mint the shortfall; in every other case (non-treasury, or
current exceeding expected) nothing is done -- the source only carries a
comment noting that a burn or transfer-out would be needed. -/
def firstAccountActions (isTreasury : Bool) (currentBalance expectedBalance : Int) :
    List LedgerAction :=
  if currentBalance ≠ expectedBalance then
    if isTreasury then
      if currentBalance < expectedBalance then
        [LedgerAction.mint (expectedBalance - currentBalance)]
      else []
    else []
  else []

/-- Actions of "The second account initially holds N HTT tokens" (lines
468-503): only when amount > 0, associate the second account, then, if the
current balance differs from 100 * amount, transfer the difference from the
first account to the second. -/
def secondInitiallyActions (amount currentBalance : Int) : List LedgerAction :=
  if 0 < amount then
    LedgerAction.associate "second" ::
      (if currentBalance ≠ adjustForDecimals amount 2 then
        [LedgerAction.transfer "first" "second"
          (adjustForDecimals amount 2 - currentBalance)]
      else [])
  else []

/-- Actions of "The second account holds N HTT tokens" (lines 543-595):
associate only when the balance lookup does not already show the token
(needsAssociation in the source), then, when amount > 0 and the current
balance differs from 100 * amount, transfer the difference from the first
account to the second. -/
def secondHoldsActions (alreadyAssociated : Bool) (amount currentBalance : Int) :
    List LedgerAction :=
  (if alreadyAssociated then [] else [LedgerAction.associate "second"]) ++
    (if 0 < amount then
      (if currentBalance ≠ adjustForDecimals amount 2 then
        [LedgerAction.transfer "first" "second"
          (adjustForDecimals amount 2 - currentBalance)]
      else [])
    else [])

/-- Recognizer for transfer actions. -/
def isTransferAct : LedgerAction → Bool
  | LedgerAction.transfer _ _ _ => true
  | LedgerAction.mint _ => false
  | LedgerAction.associate _ => false

/-- Recognizer for association actions. -/
def isAssociateAct : LedgerAction → Bool
  | LedgerAction.associate _ => true
  | LedgerAction.mint _ => false
  | LedgerAction.transfer _ _ _ => false

/-- True when the action list performs at least one transfer. -/
def containsTransfer (actions : List LedgerAction) : Bool :=
  actions.any isTransferAct

/-- True when the action list performs at least one association. -/
def containsAssociate (actions : List LedgerAction) : Bool :=
  actions.any isAssociateAct

/-- True when the action list performs no mint and no transfer. -/
def onlyAssociations (actions : List LedgerAction) : Bool :=
  actions.all isAssociateAct

/-- One addTokenTransfer entry of a TransferTransaction. -/
structure TokenTransferEntry where
  tokenId : String
  accountId : String
  amount : Int
deriving DecidableEq

/-- The entry list built by the two-party transfer steps (lines 600-602 and
623-625): a debit of 100 * amount on the sender and a matching credit on the
receiver. -/
def twoPartyTransferEntries (tokenId sender receiver : String) (amount : Int) :
    List TokenTransferEntry :=
  [⟨tokenId, sender, -(adjustForDecimals amount 2)⟩,
   ⟨tokenId, receiver, adjustForDecimals amount 2⟩]

/-- The entry list built by the four-party transfer step (lines 842-848):
outAmount debited from each of the first and second accounts, thirdAmount
credited to the third and fourthAmount to the fourth. -/
def multiPartyTransferEntries (tokenId first second third fourth : String)
    (outAmount thirdAmount fourthAmount : Int) : List TokenTransferEntry :=
  [⟨tokenId, first, -(adjustForDecimals outAmount 2)⟩,
   ⟨tokenId, second, -(adjustForDecimals outAmount 2)⟩,
   ⟨tokenId, third, adjustForDecimals thirdAmount 2⟩,
   ⟨tokenId, fourth, adjustForDecimals fourthAmount 2⟩]

/-- The net of all signed per-account amounts of a transfer transaction. -/
def entriesSum (entries : List TokenTransferEntry) : Int :=
  (entries.map TokenTransferEntry.amount).sum

/-- Helper: verifyTokenBalance passes exactly when the raw balance is 100
times the expected display amount (exact rational arithmetic). -/
theorem verifyTokenBalance_eq_true_iff (raw expectedAmount : Int) :
    verifyTokenBalance raw expectedAmount = true ↔ raw = 100 * expectedAmount := by
  unfold verifyTokenBalance
  rw [decide_eq_true_iff, div_eq_iff (by norm_num : (100 : ℚ) ≠ 0), mul_comm]
  constructor
  · intro h; exact_mod_cast h
  · intro h; exact_mod_cast h

/-- C9: getTokenBalance is total: it returns 0 when the account has no token
map, when the collection has neither of the two recognized map shapes, or when
the token is absent from the map, and otherwise returns the stored raw
amount. -/
theorem c9_getTokenBalance_total (entries : List (String × Int)) (tid : String) (v : Int) :
    getTokenBalance Option.none tid = 0 ∧
    getTokenBalance (some TokenCollection.unrecognized) tid = 0 ∧
    (lookupEntry entries tid = Option.none →
      getTokenBalance (some (TokenCollection.withGet entries)) tid = 0 ∧
      getTokenBalance (some (TokenCollection.withMap entries)) tid = 0) ∧
    (lookupEntry entries tid = some v →
      getTokenBalance (some (TokenCollection.withGet entries)) tid = v ∧
      getTokenBalance (some (TokenCollection.withMap entries)) tid = v) := by
  refine ⟨rfl, rfl, ?_, ?_⟩ <;> intro h <;> simp [getTokenBalance, h]

/-- Witness for C9 at a concrete one-entry balance map. -/
theorem c9_getTokenBalance_total_witness :
    getTokenBalance (some (TokenCollection.withGet [("0.0.1001", 500)])) "0.0.1001" = 500 ∧
    getTokenBalance (some (TokenCollection.withGet [("0.0.1001", 500)])) "0.0.1002" = 0 :=
  ⟨((c9_getTokenBalance_total [("0.0.1001", 500)] "0.0.1001" 500).2.2.2 (by decide)).1,
   ((c9_getTokenBalance_total [("0.0.1001", 500)] "0.0.1002" 500).2.2.1 (by decide)).1⟩

/-- C10: the balance verification used by all four holds-N-HTT Then steps
passes if and only if the raw on-chain balance equals expected times 100; the
divisor 100 is fixed in verifyTokenBalance, which takes no decimals input. -/
theorem c10_verify_iff_times100 (raw expectedAmount : Int) :
    verifyTokenBalance raw expectedAmount = true ↔ raw = 100 * expectedAmount :=
  verifyTokenBalance_eq_true_iff raw expectedAmount

/-- C2 counterexample: the four-party transfer constructed with outAmount 1,
thirdAmount 0, fourthAmount 0 has entries summing to -200, not zero, so the
entries do not sum to zero for all input amounts. -/
theorem c2_counterexample :
    entriesSum (multiPartyTransferEntries "t" "first" "second" "third" "fourth" 1 0 0) = -200 ∧
    entriesSum (multiPartyTransferEntries "t" "first" "second" "third" "fourth" 1 0 0) ≠ 0 := by
  decide

/-- C2 amended: the two-party transfer entries always sum to zero, and the
four-party transfer entries sum to zero exactly when thirdAmount plus
fourthAmount equals twice outAmount. -/
theorem c2_transfer_sums (tokenId a1 a2 a3 a4 : String)
    (amount outAmount thirdAmount fourthAmount : Int) :
    entriesSum (twoPartyTransferEntries tokenId a1 a2 amount) = 0 ∧
    (entriesSum (multiPartyTransferEntries tokenId a1 a2 a3 a4
        outAmount thirdAmount fourthAmount) = 0 ↔
      thirdAmount + fourthAmount = 2 * outAmount) := by
  constructor
  · simp [entriesSum, twoPartyTransferEntries]
  · simp only [entriesSum, multiPartyTransferEntries, adjustForDecimals,
      List.map_cons, List.map_nil, List.sum_cons, List.sum_nil]
    norm_num
    omega

/-- C1 counterexample: in the first-account setup step with current balance
20000, expected balance 10000 and the account being the treasury, the claim
requires a transfer of the delta -10000, but the step performs no action at
all. -/
theorem c1_counterexample :
    firstAccountActions true 20000 10000 = [] ∧
    containsTransfer (firstAccountActions true 20000 10000) = false := by
  decide

/-- C1 amended: every adjustment the balance-setup steps actually perform has
signed amount exactly expected - current: the first-account steps mint the
delta exactly when the account is the treasury and the delta is positive, and
otherwise perform no action (in particular they never transfer); the
second-account steps transfer exactly the delta from the first account to the
second. -/
theorem c1_reconciliation_delta (isTreasury alreadyAssociated : Bool)
    (current expected amount : Int) :
    (∀ d, LedgerAction.mint d ∈ firstAccountActions isTreasury current expected →
      d = expected - current ∧ 0 < d ∧ isTreasury = true) ∧
    (isTreasury = true → current < expected →
      firstAccountActions isTreasury current expected =
        [LedgerAction.mint (expected - current)]) ∧
    containsTransfer (firstAccountActions isTreasury current expected) = false ∧
    (∀ src dst d, LedgerAction.transfer src dst d ∈ secondInitiallyActions amount current →
      d = adjustForDecimals amount 2 - current ∧ src = "first" ∧ dst = "second") ∧
    (∀ src dst d,
      LedgerAction.transfer src dst d ∈ secondHoldsActions alreadyAssociated amount current →
      d = adjustForDecimals amount 2 - current ∧ src = "first" ∧ dst = "second") := by
  refine ⟨?_, ?_, ?_, ?_, ?_⟩
  · intro d hd
    unfold firstAccountActions at hd
    split at hd
    · split at hd
      · split at hd
        · simp at hd
          refine ⟨hd, by omega, by assumption⟩
        · simp at hd
      · simp at hd
    · simp at hd
  · intro ht hlt
    subst ht
    unfold firstAccountActions
    rw [if_pos (by omega), if_pos rfl, if_pos hlt]
  · unfold firstAccountActions containsTransfer
    split_ifs <;> simp [isTransferAct]
  · intro src dst d hd
    unfold secondInitiallyActions at hd
    split at hd
    · rw [List.mem_cons] at hd
      rcases hd with hd | hd
      · exact absurd hd (by simp)
      · split at hd
        · rw [List.mem_singleton] at hd
          injection hd with h1 h2 h3
          exact ⟨h3, h1, h2⟩
        · simp at hd
    · simp at hd
  · intro src dst d hd
    unfold secondHoldsActions at hd
    rw [List.mem_append] at hd
    rcases hd with hd | hd
    · split at hd
      · simp at hd
      · rw [List.mem_singleton] at hd
        exact absurd hd (by simp)
    · split at hd
      · split at hd
        · rw [List.mem_singleton] at hd
          injection hd with h1 h2 h3
          exact ⟨h3, h1, h2⟩
        · simp at hd
      · simp at hd

/-- Witness for the C1 amended theorem at concrete inputs: treasury short by
500 raw units mints 500, and the second-account step with amount 5 and
current 0 transfers exactly 500. -/
theorem c1_reconciliation_delta_witness :
    ((500 : Int) = 500 - 0 ∧ (0 : Int) < 500 ∧ true = true) ∧
    firstAccountActions true 0 500 = [LedgerAction.mint (500 - 0)] ∧
    ((500 : Int) = adjustForDecimals 5 2 - 0 ∧ "first" = "first" ∧ "second" = "second") :=
  ⟨(c1_reconciliation_delta true false 0 500 5).1 500 (by decide),
   (c1_reconciliation_delta true false 0 500 5).2.1 rfl (by decide),
   (c1_reconciliation_delta true false 0 500 5).2.2.2.1 "first" "second" 500 (by decide)⟩

/-- C4: when the current balance already equals the expected balance
(100 * amount), the balance-setup steps perform no mint and no transfer: the
first-account step does nothing and the second-account steps at most
associate. -/
theorem c4_idempotent (isTreasury alreadyAssociated : Bool) (amount current : Int)
    (h : current = adjustForDecimals amount 2) :
    firstAccountActions isTreasury current (adjustForDecimals amount 2) = [] ∧
    onlyAssociations (secondInitiallyActions amount current) = true ∧
    onlyAssociations (secondHoldsActions alreadyAssociated amount current) = true := by
  subst h
  refine ⟨?_, ?_, ?_⟩
  · simp [firstAccountActions]
  · unfold secondInitiallyActions onlyAssociations
    split_ifs <;> simp_all [isAssociateAct]
  · unfold secondHoldsActions onlyAssociations
    split_ifs <;> simp_all [isAssociateAct]

/-- Witness for C4 at amount 5 and matching raw balance 500. -/
theorem c4_idempotent_witness :
    firstAccountActions true 500 (adjustForDecimals 5 2) = [] ∧
    onlyAssociations (secondInitiallyActions 5 500) = true ∧
    onlyAssociations (secondHoldsActions false 5 500) = true :=
  c4_idempotent true false 5 500 (by decide)

/-- C6 counterexample: in "The second account holds N HTT tokens", when the
balance lookup already shows the token, no association is performed even
though a token amount (10) is being set up and a transfer follows, so the
association is not unconditional. -/
theorem c6_counterexample :
    containsAssociate (secondHoldsActions true 10 0) = false ∧
    containsTransfer (secondHoldsActions true 10 0) = true := by
  decide

/-- C6 amended: whenever an association happens it is the first action, before
any transfer; but it is conditional: the initially-holds step associates
exactly when amount > 0, and the holds step associates exactly when the
balance lookup does not already show the token. -/
theorem c6_associate_order (alreadyAssociated : Bool) (amount current : Int) :
    (containsTransfer (secondInitiallyActions amount current) = true →
      (secondInitiallyActions amount current).head? =
        some (LedgerAction.associate "second")) ∧
    (containsAssociate (secondInitiallyActions amount current) = true ↔ 0 < amount) ∧
    (alreadyAssociated = false →
      (secondHoldsActions alreadyAssociated amount current).head? =
        some (LedgerAction.associate "second")) ∧
    containsAssociate (secondHoldsActions alreadyAssociated amount current) =
      !alreadyAssociated := by
  refine ⟨?_, ?_, ?_, ?_⟩
  · intro htr
    unfold secondInitiallyActions at htr ⊢
    split at htr
    · rw [if_pos (by assumption)]
      rfl
    · simp [containsTransfer] at htr
  · unfold secondInitiallyActions containsAssociate
    split_ifs <;> simp_all [isAssociateAct]
  · intro ha
    subst ha
    unfold secondHoldsActions
    split_ifs <;> simp_all
  · unfold secondHoldsActions containsAssociate
    cases alreadyAssociated <;> split_ifs <;> simp_all [isAssociateAct]

/-- Witness for the C6 amended theorem at concrete inputs. -/
theorem c6_associate_order_witness :
    (secondInitiallyActions 5 0).head? = some (LedgerAction.associate "second") ∧
    (secondHoldsActions false 5 0).head? = some (LedgerAction.associate "second") :=
  ⟨(c6_associate_order false 5 0).1 (by decide),
   (c6_associate_order false 5 0).2.2.1 rfl⟩

/-- Step outcome: ok () when the cucumber step returns normally, error when it
throws to the test runner. -/
abbrev StepResult := Except String Unit

/-- The catch block shared by all setup steps: every error is logged to the
console and execution continues, so the result is always ok. -/
def catchAndLog (tryBlock : Except String Unit) : StepResult :=
  match tryBlock with
  | Except.error _ => Except.ok ()
  | Except.ok _ => Except.ok ()

/-- Control flow of "The first account initially holds N HTT tokens" (lines
430-465; the holds variant at 505-540 is identical): the getTokenBalance call
on line 435 is OUTSIDE the try, so its failure propagates to the runner;
everything inside the try (the TokenInfoQuery, the mint submission) is caught
and logged.  Each external call result is an explicit argument. -/
def firstAccountStepRun (balanceRes : Except String Int)
    (treasuryRes : Except String Bool) (mintRes : Except String Unit)
    (expectedBalance : Int) : StepResult :=
  match balanceRes with
  | Except.error e => Except.error e
  | Except.ok current =>
    if current ≠ expectedBalance then
      catchAndLog
        (match treasuryRes with
        | Except.error e => Except.error e
        | Except.ok isTreasury =>
          if isTreasury then
            (if current < expectedBalance then mintRes else Except.ok ())
          else Except.ok ())
    else Except.ok ()

/-- Control flow of "The second account initially holds N HTT tokens" (lines
468-503): the entire body, association and balance query included, sits inside
a try whose catch only logs, so the step never throws. -/
def secondInitiallyStepRun (associateRes : Except String Unit)
    (balanceRes : Except String Int) (transferRes : Except String Unit)
    (amount : Int) : StepResult :=
  if 0 < amount then
    catchAndLog
      (match associateRes with
      | Except.error e => Except.error e
      | Except.ok _ =>
        match balanceRes with
        | Except.error e => Except.error e
        | Except.ok current =>
          if current ≠ adjustForDecimals amount 2 then transferRes else Except.ok ())
  else Except.ok ()

/-- Control flow of the verification steps "The first/second account should
hold N HTT tokens" (lines 859-868): getTokenBalance, then the
assert.strictEqual inside verifyTokenBalance; nothing is caught, so a failing
query or a balance mismatch throws to the runner. -/
def shouldHoldStepRun (balanceRes : Except String Int) (expectedAmount : Int) :
    StepResult :=
  match balanceRes with
  | Except.error e => Except.error e
  | Except.ok raw =>
    if verifyTokenBalance raw expectedAmount then Except.ok ()
    else Except.error "assert.strictEqual failed"

/-- The mint submission inside the first-account setup steps (lines 449-455):
freeze, sign, execute -- and no getReceipt call, so the consensus receipt
status is never consulted; only a precheck failure of execute is visible to
the caller. -/
def setupMintOutcome (precheckRes : Except String Unit)
    (_receiptSuccess : Bool) : Except String Unit :=
  match precheckRes with
  | Except.error e => Except.error e
  | Except.ok _ => Except.ok ()

/-- "The message ... is published to the topic" (lines 60-84): the receipt is
fetched and its status compared with Status.Success explicitly; non-success
throws. -/
def publishMessageStep (receiptSuccess : Bool) : StepResult :=
  if receiptSuccess then Except.ok () else Except.error "Message submission failed"

/-- "The first account submits the transaction" (lines 611-616): execute then
getReceipt; per the SDK contract getReceipt throws a ReceiptStatusError when
the receipt status is not SUCCESS, so a non-success receipt propagates to the
runner. -/
def submitPendingStep (receiptSuccess : Bool) : StepResult :=
  if receiptSuccess then Except.ok () else Except.error "ReceiptStatusError"

/-- Outcome of a Then step as seen by the cucumber runner. -/
inductive StepOutcome
  | passed
  | failed (message : String)
deriving DecidableEq

/-- "An attempt to mint tokens fails" (lines 349-366): the try block contains
both the mint attempt and the assert.fail that is meant to flag an unexpected
success; the catch swallows every error, the AssertionError from assert.fail
included, and only logs. -/
def attemptMintFailsStep (mintRes : Except String Unit) : StepOutcome :=
  let tryBlock : Except String Unit :=
    match mintRes with
    | Except.error e => Except.error e
    | Except.ok _ =>
      Except.error "Token minting should have failed for fixed supply token"
  match tryBlock with
  | Except.error _ => StepOutcome.passed
  | Except.ok _ => StepOutcome.passed

/-- Helper: the catch block always yields ok. -/
theorem catchAndLog_eq_ok (tryBlock : Except String Unit) :
    catchAndLog tryBlock = Except.ok () := by
  cases tryBlock <;> rfl

/-- C3: the fixed-supply mint-rejection step treats rejection as success, but
when the mint succeeds the assert.fail raised on the success path is swallowed
by the surrounding catch, so the step still passes instead of reporting
failure, contradicting the intent of its own assert.fail. -/
theorem c3_mint_fails_step_bug :
    attemptMintFailsStep (Except.error "TOKEN_HAS_NO_SUPPLY_KEY") = StepOutcome.passed ∧
    attemptMintFailsStep (Except.ok ()) = StepOutcome.passed :=
  ⟨rfl, rfl⟩

/-- C5 counterexample: a failing balance query in "The first account initially
holds N HTT tokens" is raised outside the try/catch, so this setup step throws
to the runner, refuting the claim that setup steps never throw. -/
theorem c5_counterexample :
    firstAccountStepRun (Except.error "network error") (Except.ok true)
      (Except.ok ()) 1000 = Except.error "network error" := rfl

/-- C5 amended: errors raised inside the setup steps try blocks are caught and
logged (the second-account setup step never throws, and the first-account step
never throws once its initial balance query, which sits outside the try,
succeeds), while the verification steps throw exactly on query failure or
balance mismatch. -/
theorem c5_error_propagation (treasuryRes : Except String Bool)
    (mintRes associateRes transferRes : Except String Unit)
    (balanceRes : Except String Int)
    (current expectedBalance amount expectedAmount : Int) :
    firstAccountStepRun (Except.ok current) treasuryRes mintRes expectedBalance =
      Except.ok () ∧
    secondInitiallyStepRun associateRes balanceRes transferRes amount =
      Except.ok () ∧
    (shouldHoldStepRun (Except.ok current) expectedAmount = Except.ok () ↔
      current = 100 * expectedAmount) := by
  refine ⟨?_, ?_, ?_⟩
  · simp only [firstAccountStepRun, catchAndLog_eq_ok, ite_self]
  · simp only [secondInitiallyStepRun, catchAndLog_eq_ok, ite_self]
  · unfold shouldHoldStepRun
    rw [← verifyTokenBalance_eq_true_iff current expectedAmount]
    by_cases hv : verifyTokenBalance current expectedAmount = true
    · simp [hv]
    · simp [hv]

/-- C8 counterexample: the setup mint never fetches its receipt; with a
successful precheck and a non-success consensus receipt, the first-account
setup step reports success, so the non-success status is silently ignored. -/
theorem c8_counterexample :
    setupMintOutcome (Except.ok ()) false = Except.ok () ∧
    firstAccountStepRun (Except.ok 0) (Except.ok true)
      (setupMintOutcome (Except.ok ()) false) 1000 = Except.ok () := by
  refine ⟨rfl, ?_⟩
  simp [firstAccountStepRun, setupMintOutcome, catchAndLog]

/-- C8 amended: the message-publish and pending-transaction submit steps fail
exactly on a non-success receipt, but the mint submitted inside the
balance-setup steps never retrieves its receipt, so a non-success consensus
status there never surfaces. -/
theorem c8_receipt_surfacing (receiptSuccess : Bool) :
    (publishMessageStep receiptSuccess = Except.ok () ↔ receiptSuccess = true) ∧
    (submitPendingStep receiptSuccess = Except.ok () ↔ receiptSuccess = true) ∧
    setupMintOutcome (Except.ok ()) receiptSuccess = Except.ok () := by
  cases receiptSuccess <;>
    simp [publishMessageStep, submitPendingStep, setupMintOutcome]

/-- The observable transaction-assembly events of the transfer steps. -/
inductive TxEvent
  | addEntry (accountId : String) (amount : Int)
  | freeze
  | sign (accountId : String)
  | submit (clientOperator : String)
  | awaitReceipt
deriving DecidableEq

/-- Events of "A transaction is created to transfer N HTT tokens out of the
first and second account ..." (lines 840-856), in source order: the four
addTokenTransfer entries (debits negative, credits positive), freezeWith, sign
with the first key, sign with the second key. -/
def multiPartyCreateEvents (outAmount thirdAmount fourthAmount : Int) : List TxEvent :=
  [TxEvent.addEntry "first" (-(adjustForDecimals outAmount 2)),
   TxEvent.addEntry "second" (-(adjustForDecimals outAmount 2)),
   TxEvent.addEntry "third" (adjustForDecimals thirdAmount 2),
   TxEvent.addEntry "fourth" (adjustForDecimals fourthAmount 2),
   TxEvent.freeze,
   TxEvent.sign "first",
   TxEvent.sign "second"]

/-- Events of "The first account submits the transaction" (lines 611-616):
execute with the client bound to the first account, then getReceipt. -/
def submitStepEvents : List TxEvent :=
  [TxEvent.submit "first", TxEvent.awaitReceipt]

/-- The full event trace of the multi-party transfer across the two steps. -/
def multiPartyFullTrace (outAmount thirdAmount fourthAmount : Int) : List TxEvent :=
  multiPartyCreateEvents outAmount thirdAmount fourthAmount ++ submitStepEvents

/-- Assembly phase of an event: entries, then freeze, then signatures, then
submission, then the receipt. -/
def eventPhase : TxEvent → Nat
  | TxEvent.addEntry _ _ => 0
  | TxEvent.freeze => 1
  | TxEvent.sign _ => 2
  | TxEvent.submit _ => 3
  | TxEvent.awaitReceipt => 4

/-- True when the list of numbers never decreases. -/
def nondecreasing : List Nat → Bool
  | [] => true
  | [_] => true
  | a :: b :: rest => decide (a ≤ b) && nondecreasing (b :: rest)

/-- The accounts that sign the transaction, in signing order. -/
def signersOf : List TxEvent → List String
  | [] => []
  | TxEvent.sign a :: rest => a :: signersOf rest
  | _ :: rest => signersOf rest

/-- The accounts whose balance is debited by an entry of the transaction. -/
def debitedAccountsOf : List TxEvent → List String
  | [] => []
  | TxEvent.addEntry a amt :: rest =>
    if amt < 0 then a :: debitedAccountsOf rest else debitedAccountsOf rest
  | _ :: rest => debitedAccountsOf rest

/-- How many submissions the trace performs. -/
def submitCount : List TxEvent → Nat
  | [] => 0
  | TxEvent.submit _ :: rest => submitCount rest + 1
  | _ :: rest => submitCount rest

/-- C7: the multi-party transfer is assembled in order: all entries are added,
then the transaction is frozen, then it is signed, then submitted once, with
the awaited receipt last (phases never run backwards); every account whose
balance is debited is among the signers (given the nonnegative amounts the
step regexes supply), and the submit step surfaces exactly the non-success
receipts, per the SDK getReceipt contract. -/
theorem c7_assembly_order (outAmount thirdAmount fourthAmount : Int)
    (receiptSuccess : Bool) :
    nondecreasing ((multiPartyFullTrace outAmount thirdAmount fourthAmount).map
      eventPhase) = true ∧
    (multiPartyFullTrace outAmount thirdAmount fourthAmount).map eventPhase =
      [0, 0, 0, 0, 1, 2, 2, 3, 4] ∧
    signersOf (multiPartyFullTrace outAmount thirdAmount fourthAmount) =
      ["first", "second"] ∧
    (0 ≤ thirdAmount → 0 ≤ fourthAmount →
      (debitedAccountsOf (multiPartyFullTrace outAmount thirdAmount fourthAmount)).all
        (fun a => (signersOf (multiPartyFullTrace outAmount thirdAmount
          fourthAmount)).contains a) = true) ∧
    submitCount (multiPartyFullTrace outAmount thirdAmount fourthAmount) = 1 ∧
    (multiPartyFullTrace outAmount thirdAmount fourthAmount).getLast? =
      some TxEvent.awaitReceipt ∧
    (submitPendingStep receiptSuccess = Except.ok () ↔ receiptSuccess = true) := by
  refine ⟨rfl, rfl, rfl, ?_, rfl, rfl, ?_⟩
  · intro h3 h4
    have h3x : ¬ adjustForDecimals thirdAmount 2 < 0 := by
      unfold adjustForDecimals
      exact not_lt.mpr (mul_nonneg h3 (by norm_num))
    have h4x : ¬ adjustForDecimals fourthAmount 2 < 0 := by
      unfold adjustForDecimals
      exact not_lt.mpr (mul_nonneg h4 (by norm_num))
    simp only [multiPartyFullTrace, multiPartyCreateEvents, submitStepEvents,
      List.cons_append, List.nil_append, debitedAccountsOf, signersOf,
      if_neg h3x, if_neg h4x]
    split_ifs <;> decide
  · cases receiptSuccess <;> simp [submitPendingStep]

/-- Witness for C7 at the amounts of the feature scenario (10 out of each of
the first and second accounts, 5 into the third, 15 into the fourth). -/
theorem c7_assembly_order_witness :
    (debitedAccountsOf (multiPartyFullTrace 10 5 15)).all
      (fun a => (signersOf (multiPartyFullTrace 10 5 15)).contains a) = true :=
  (c7_assembly_order 10 5 15 true).2.2.2.1 (by decide) (by decide)
